import Mathlib

/-!
Shallow embedding of the tmdb-api endpoint modules
`src/company/alternative_names.rs` and `src/movie/images.rs`:
command structs, their `Command` implementations (`path`, `params`),
their response types, and a JSON value model for the serde
(de)serialization behaviour the tests exercise.
-/

namespace Tmdb

/-- A JSON value, sufficient for the bodies this client exchanges:
numbers here are the unsigned integers (u64 ids, status codes) these
endpoints use. -/
inductive Json where
  | null : Json
  | bool : Bool → Json
  | num : Nat → Json
  | str : String → Json
  | arr : List Json → Json
  | obj : List (String × Json) → Json

/-- Look up the first value bound to `key` in a JSON object's field list,
mirroring serde's match of a struct field against an object key. -/
def lookupField : List (String × Json) → String → Option Json
  | [], _ => none
  | (k, v) :: rest, key => if k = key then some v else lookupField rest key

/-- `CompanyAlternativeNames` command struct: the single required field
`company_id: u64`. -/
structure CompanyAlternativeNames where
  company_id : Nat
deriving DecidableEq, Repr

/-- `CompanyAlternativeNames::new`. -/
def CompanyAlternativeNames.new (company_id : Nat) : CompanyAlternativeNames :=
  { company_id := company_id }

/-- `Command::path` for `CompanyAlternativeNames`:
`format!("/company/\x7b\x7d/alternative_names", self.company_id)`. -/
def CompanyAlternativeNames.path (c : CompanyAlternativeNames) : String :=
  "/company/" ++ toString c.company_id ++ "/alternative_names"

/-- `Command::params` for `CompanyAlternativeNames`: always `Vec::new()`. -/
def CompanyAlternativeNames.params (_ : CompanyAlternativeNames) :
    List (String × String) :=
  []

/-- `MovieImages` command struct: required `movie_id: u64` and an optional
`language: Option<String>`. -/
structure MovieImages where
  movie_id : Nat
  language : Option String
deriving DecidableEq, Repr

/-- `MovieImages::new`: sets `movie_id`, leaves `language` at `None`. -/
def MovieImages.new (movie_id : Nat) : MovieImages :=
  { movie_id := movie_id, language := none }

/-- `MovieImages::with_language`: consumes `self`, overwrites `language`. -/
def MovieImages.with_language (c : MovieImages) (value : Option String) :
    MovieImages :=
  { c with language := value }

/-- `Command::path` for `MovieImages`:
`format!("/movie/\x7b\x7d/images", self.movie_id)`. -/
def MovieImages.path (c : MovieImages) : String :=
  "/movie/" ++ toString c.movie_id ++ "/images"

/-- `Command::params` for `MovieImages`: the single `("language", l)` pair
when `self.language` is `Some(l)`, otherwise `Vec::new()`. -/
def MovieImages.params (c : MovieImages) : List (String × String) :=
  match c.language with
  | some language => [("language", language)]
  | none => []

/-- The shared shape of both path builders: a literal, the decimal
rendering of the id, a literal. -/
def pathTemplate (pre post : String) (id : Nat) : String :=
  pre ++ toString id ++ post

/-- One entry of a company's alternative-name list; the JSON field
`"type"` is renamed to `kind` and read through
`crate::util::empty_string::deserialize`. -/
structure CompanyAlternativeName where
  name : String
  kind : Option String
deriving DecidableEq, Repr

/-- Response of `CompanyAlternativeNames`. -/
structure CompanyAlternativeNamesResult where
  id : Nat
  results : List CompanyAlternativeName
deriving DecidableEq, Repr

/-- Modelled from the spec: `crate::common::image::Image` is not under
`src/`; the spec describes responses as plain data holders mirroring the
upstream JSON schema ("arrays of sub-objects such as images"), so an
image is modelled as a plain record of a file path, dimensions and an
optional language tag. -/
structure Image where
  file_path : String
  height : Nat
  width : Nat
  iso_639_1 : Option String
deriving DecidableEq, Repr

/-- Response of `MovieImages`. -/
structure MovieImagesResult where
  id : Nat
  backdrops : List Image
  posters : List Image
  logos : List Image
deriving DecidableEq, Repr

/-- Modelled from the spec: `crate::util::empty_string::deserialize` is
not under `src/`; it is the empty-string filter the `"type"` field is
declared to be read through — a JSON null or empty string becomes `None`,
a non-empty string `s` becomes `Some s`. -/
def empty_string.deserialize : Json → Option (Option String)
  | Json.null => some none
  | Json.str s => some (if s = "" then none else some s)
  | _ => none

/-- Plain serde decoding of an optional string field: null is `None`, a
string is `Some`. -/
def decodeOptString : Json → Option (Option String)
  | Json.null => some none
  | Json.str s => some (some s)
  | _ => none

/-- Decode every element of a JSON array, failing if any element fails,
as serde does for a `Vec` field. -/
def decodeAll (d : Json → Option α) : List Json → Option (List α)
  | [] => some []
  | j :: js =>
    match d j, decodeAll d js with
    | some a, some rest => some (a :: rest)
    | _, _ => none

/-- Derived `Deserialize` for `CompanyAlternativeName`: field `name` is a
string, field `"type"` goes through the empty-string filter. -/
def decodeCompanyAlternativeName (j : Json) : Option CompanyAlternativeName :=
  match j with
  | Json.obj fields =>
    match lookupField fields "name", lookupField fields "type" with
    | some (Json.str name), some tj =>
      match empty_string.deserialize tj with
      | some kind => some { name := name, kind := kind }
      | none => none
    | _, _ => none
  | _ => none

/-- Derived `Serialize` for `CompanyAlternativeName`: `kind` is emitted
under the key `"type"`, `None` as null. -/
def encodeCompanyAlternativeName (e : CompanyAlternativeName) : Json :=
  Json.obj [("name", Json.str e.name),
            ("type", match e.kind with
                     | none => Json.null
                     | some s => Json.str s)]

/-- Derived `Deserialize` for `CompanyAlternativeNamesResult`. -/
def decodeCompanyAlternativeNamesResult (j : Json) :
    Option CompanyAlternativeNamesResult :=
  match j with
  | Json.obj fields =>
    match lookupField fields "id", lookupField fields "results" with
    | some (Json.num id), some (Json.arr xs) =>
      match decodeAll decodeCompanyAlternativeName xs with
      | some results => some { id := id, results := results }
      | none => none
    | _, _ => none
  | _ => none

/-- Derived `Serialize` for `CompanyAlternativeNamesResult`. -/
def encodeCompanyAlternativeNamesResult (r : CompanyAlternativeNamesResult) :
    Json :=
  Json.obj [("id", Json.num r.id),
            ("results", Json.arr (r.results.map encodeCompanyAlternativeName))]

/-- Decoding of the modelled `Image` record. -/
def decodeImage (j : Json) : Option Image :=
  match j with
  | Json.obj fields =>
    match lookupField fields "file_path", lookupField fields "height",
          lookupField fields "width", lookupField fields "iso_639_1" with
    | some (Json.str file_path), some (Json.num height),
      some (Json.num width), some lj =>
      match decodeOptString lj with
      | some iso => some { file_path := file_path, height := height,
                           width := width, iso_639_1 := iso }
      | none => none
    | _, _, _, _ => none
  | _ => none

/-- Encoding of the modelled `Image` record. -/
def encodeImage (img : Image) : Json :=
  Json.obj [("file_path", Json.str img.file_path),
            ("height", Json.num img.height),
            ("width", Json.num img.width),
            ("iso_639_1", match img.iso_639_1 with
                          | none => Json.null
                          | some s => Json.str s)]

/-- Derived `Deserialize` for `MovieImagesResult`. -/
def decodeMovieImagesResult (j : Json) : Option MovieImagesResult :=
  match j with
  | Json.obj fields =>
    match lookupField fields "id", lookupField fields "backdrops",
          lookupField fields "posters", lookupField fields "logos" with
    | some (Json.num id), some (Json.arr bs), some (Json.arr ps),
      some (Json.arr ls) =>
      match decodeAll decodeImage bs, decodeAll decodeImage ps,
            decodeAll decodeImage ls with
      | some backdrops, some posters, some logos =>
        some { id := id, backdrops := backdrops, posters := posters,
               logos := logos }
      | _, _, _ => none
    | _, _, _, _ => none
  | _ => none

/-- Derived `Serialize` for `MovieImagesResult`. -/
def encodeMovieImagesResult (m : MovieImagesResult) : Json :=
  Json.obj [("id", Json.num m.id),
            ("backdrops", Json.arr (m.backdrops.map encodeImage)),
            ("posters", Json.arr (m.posters.map encodeImage)),
            ("logos", Json.arr (m.logos.map encodeImage))]

/-- The API's error envelope: numeric `status_code`, human
`status_message`, as asserted by the unit tests. -/
structure ServerError where
  status_code : Nat
  status_message : String
deriving DecidableEq, Repr

/-- Modelled from the spec: the client's error type is not under `src/`;
the spec says errors are either transport failures or the API's own
error envelope passed through unmodified. -/
inductive Error where
  | request : String → Error
  | server : ServerError → Error
deriving DecidableEq, Repr

/-- `Error::as_server_error`, as called by the unit tests. -/
def Error.as_server_error : Error → Option ServerError
  | Error.server e => some e
  | _ => none

/-- An HTTP response handed back by the injected executor: a status and
an already-parsed JSON body. -/
structure HttpResponse where
  status : Nat
  body : Json

/-- Decoding of the error envelope body. -/
def decodeServerError (j : Json) : Option ServerError :=
  match j with
  | Json.obj fields =>
    match lookupField fields "status_code", lookupField fields "status_message" with
    | some (Json.num c), some (Json.str m) =>
      some { status_code := c, status_message := m }
    | _, _ => none
  | _ => none

/-- 2xx statuses count as success. -/
def isSuccess (status : Nat) : Bool :=
  200 ≤ status && status ≤ 299

/-- Modelled from the spec: `Command::execute` is not under `src/`.
On a successful status the body is decoded as the command's output; on
any other status the body is decoded as the API's error envelope and
returned as a server error, a transport-style error reported otherwise. -/
def executeWith (decodeOutput : Json → Option α) (resp : HttpResponse) :
    Except Error α :=
  if isSuccess resp.status then
    match decodeOutput resp.body with
    | some v => Except.ok v
    | none => Except.error (Error.request "error decoding response body")
  else
    match decodeServerError resp.body with
    | some e => Except.error (Error.server e)
    | none => Except.error (Error.request "error decoding error body")

/-- `execute` for `CompanyAlternativeNames` against a given response. -/
def CompanyAlternativeNames.execute (_ : CompanyAlternativeNames)
    (resp : HttpResponse) : Except Error CompanyAlternativeNamesResult :=
  executeWith decodeCompanyAlternativeNamesResult resp

/-- `execute` for `MovieImages` against a given response. -/
def MovieImages.execute (_ : MovieImages) (resp : HttpResponse) :
    Except Error MovieImagesResult :=
  executeWith decodeMovieImagesResult resp

/-- The message in `assets/invalid-api-key.json`. -/
def invalidKeyMessage : String :=
  "Invalid API key: You must be granted a valid key."

/-- The body of `assets/invalid-api-key.json`: status code 7. -/
def invalidKeyEnvelope : Json :=
  Json.obj [("status_code", Json.num 7),
            ("status_message", Json.str invalidKeyMessage)]

/-- A 401 response carrying the invalid-api-key envelope, as mocked by
the `invalid_api_key` tests. -/
def unauthorizedResponse : HttpResponse :=
  { status := 401, body := invalidKeyEnvelope }

/-- The message in `assets/resource-not-found.json`. -/
def notFoundMessage : String :=
  "The resource you requested could not be found."

/-- The body of `assets/resource-not-found.json`: status code 34. -/
def notFoundEnvelope : Json :=
  Json.obj [("status_code", Json.num 34),
            ("status_message", Json.str notFoundMessage)]

/-- A 404 response carrying the not-found envelope, as mocked by the
`resource_not_found` tests. -/
def notFoundResponse : HttpResponse :=
  { status := 404, body := notFoundEnvelope }

/-- A sample image value. -/
def sampleImage : Image :=
  { file_path := "/x.jpg", height := 1080, width := 1920,
    iso_639_1 := some "en" }

/-- A sample movie-images response value. -/
def sampleMovieImagesResult : MovieImagesResult :=
  { id := 550, backdrops := [sampleImage], posters := [], logos := [] }

/-- A sample company-alternative-names response value, one entry with
`kind = None` and one with a non-empty kind. -/
def sampleCompanyResult : CompanyAlternativeNamesResult :=
  { id := 3, results := [{ name := "Disney", kind := none },
                         { name := "WDC", kind := some "common" }] }

/-- Computation rule of `decodeAll` on a cons cell. -/
theorem decodeAll_cons (d : Json → Option α) (j : Json) (js : List Json) :
    decodeAll d (j :: js)
      = match d j, decodeAll d js with
        | some a, some rest => some (a :: rest)
        | _, _ => none :=
  rfl

/-- `decodeAll` preserves length: a decoded list has one element per
array element. -/
theorem decodeAll_length (d : Json → Option α) :
    ∀ (xs : List Json) (ys : List α),
      decodeAll d xs = some ys → ys.length = xs.length := by
  intro xs
  induction xs with
  | nil =>
    intro ys h
    simp only [decodeAll, Option.some.injEq] at h
    subst h
    rfl
  | cons j js ih =>
    intro ys h
    rw [decodeAll_cons] at h
    cases hd : d j with
    | none =>
      rw [hd] at h
      cases hrest : decodeAll d js <;> rw [hrest] at h <;> simp at h
    | some a =>
      rw [hd] at h
      cases hrest : decodeAll d js with
      | none => rw [hrest] at h; simp at h
      | some rest =>
        rw [hrest] at h
        simp only [Option.some.injEq] at h
        subst h
        simp [ih rest hrest]

/-- `decodeAll` inverts an element-wise encoding that each element
round-trips through. -/
theorem decodeAll_map (d : Json → Option α) (e : α → Json) :
    ∀ (l : List α), (∀ x ∈ l, d (e x) = some x) →
      decodeAll d (l.map e) = some l := by
  intro l
  induction l with
  | nil => intro _; rfl
  | cons x xs ih =>
    intro h
    have hx : d (e x) = some x := h x (List.mem_cons_self x xs)
    have hxs : decodeAll d (xs.map e) = some xs :=
      ih fun y hy => h y (List.mem_cons_of_mem x hy)
    show (match d (e x), decodeAll d (xs.map e) with
          | some a, some rest => some (a :: rest)
          | _, _ => none) = some (x :: xs)
    rw [hx, hxs]

/-- A `CompanyAlternativeName` whose kind is not `Some ""` round-trips
through the derived serialization. -/
theorem companyAlternativeName_roundtrip (x : CompanyAlternativeName)
    (h : x.kind ≠ some "") :
    decodeCompanyAlternativeName (encodeCompanyAlternativeName x) = some x := by
  obtain ⟨nm, k⟩ := x
  cases k with
  | none => rfl
  | some s =>
    have hs : s ≠ "" := by
      intro hs
      exact h (by rw [hs])
    have e : decodeCompanyAlternativeName
        (encodeCompanyAlternativeName { name := nm, kind := some s })
        = some { name := nm, kind := if s = "" then none else some s } := rfl
    rw [e, if_neg hs]

/-- The modelled image record round-trips unconditionally. -/
theorem image_roundtrip (img : Image) :
    decodeImage (encodeImage img) = some img := by
  obtain ⟨fp, ht, wd, iso⟩ := img
  cases iso <;> rfl

/-- C1: for every u64 company id the constructed path is exactly
`/company/<id>/alternative_names`, and for every u64 movie id it is
exactly `/movie/<id>/images`, the documented endpoints. -/
theorem path_matches_documented_endpoint (n m : Nat) :
    (CompanyAlternativeNames.new n).path
      = "/company/" ++ toString n ++ "/alternative_names" ∧
    (MovieImages.new m).path = "/movie/" ++ toString m ++ "/images" :=
  ⟨rfl, rfl⟩

/-- C2: whenever the executor hands back a non-success response whose
body is the API's JSON error envelope, `execute` returns an `Err` whose
server-error variant carries the envelope's numeric status code and
message unmodified, and never an `Ok`. -/
theorem execute_passes_through_error_envelope
    (c : CompanyAlternativeNames) (m : MovieImages) (resp : HttpResponse)
    (code : Nat) (msg : String)
    (hstatus : isSuccess resp.status = false)
    (hbody : decodeServerError resp.body
      = some { status_code := code, status_message := msg }) :
    c.execute resp
      = Except.error (Error.server { status_code := code, status_message := msg }) ∧
    (∀ v, c.execute resp ≠ Except.ok v) ∧
    m.execute resp
      = Except.error (Error.server { status_code := code, status_message := msg }) ∧
    (∀ v, m.execute resp ≠ Except.ok v) ∧
    (Error.server { status_code := code, status_message := msg }).as_server_error
      = some { status_code := code, status_message := msg } := by
  have hgen : ∀ {β : Type} (dec : Json → Option β),
      executeWith dec resp
        = Except.error
            (Error.server { status_code := code, status_message := msg }) := by
    intro β dec
    simp [executeWith, hstatus, hbody]
  refine ⟨hgen _, ?_, hgen _, ?_, rfl⟩
  · intro v hv
    exact Except.noConfusion
      ((hgen decodeCompanyAlternativeNamesResult).symm.trans hv)
  · intro v hv
    exact Except.noConfusion ((hgen decodeMovieImagesResult).symm.trans hv)

/-- C2 witness: the mocked 401 (status code 7) and 404 (status code 34)
responses of the unit tests. -/
theorem execute_passes_through_error_envelope_witness :
    (CompanyAlternativeNames.new 1).execute unauthorizedResponse
      = Except.error (Error.server
          { status_code := 7, status_message := invalidKeyMessage }) ∧
    (MovieImages.new 42).execute notFoundResponse
      = Except.error (Error.server
          { status_code := 34, status_message := notFoundMessage }) :=
  ⟨(execute_passes_through_error_envelope (CompanyAlternativeNames.new 1)
      (MovieImages.new 42) unauthorizedResponse 7 invalidKeyMessage rfl rfl).1,
   (execute_passes_through_error_envelope (CompanyAlternativeNames.new 1)
      (MovieImages.new 42) notFoundResponse 34 notFoundMessage rfl rfl).2.2.1⟩

/-- C3: `MovieImages::params` is `[("language", l)]` exactly when the
language field is `Some(l)` and `[]` exactly when it is `None`;
`CompanyAlternativeNames::params` is always `[]`. -/
theorem params_reflect_language_field (m : MovieImages) (l : String)
    (c : CompanyAlternativeNames) :
    (m.params = [("language", l)] ↔ m.language = some l) ∧
    (m.params = [] ↔ m.language = none) ∧
    c.params = [] := by
  refine ⟨?_, ?_, rfl⟩ <;>
    cases h : m.language <;> simp [MovieImages.params, h]

/-- C4: a JSON object with the documented fields decodes to the fixed
response structure with the expected field values — numeric `id` is kept
and each array yields one decoded element per JSON element. -/
theorem decode_object_with_documented_fields :
    (∀ (n : Nat) (xs : List Json) (ys : List CompanyAlternativeName),
      decodeAll decodeCompanyAlternativeName xs = some ys →
      decodeCompanyAlternativeNamesResult
          (Json.obj [("id", Json.num n), ("results", Json.arr xs)])
        = some { id := n, results := ys } ∧ ys.length = xs.length) ∧
    (∀ (n : Nat) (bs ps ls : List Json) (bs2 ps2 ls2 : List Image),
      decodeAll decodeImage bs = some bs2 →
      decodeAll decodeImage ps = some ps2 →
      decodeAll decodeImage ls = some ls2 →
      decodeMovieImagesResult
          (Json.obj [("id", Json.num n), ("backdrops", Json.arr bs),
                     ("posters", Json.arr ps), ("logos", Json.arr ls)])
        = some { id := n, backdrops := bs2, posters := ps2, logos := ls2 }) := by
  constructor
  · intro n xs ys h
    have e : decodeCompanyAlternativeNamesResult
        (Json.obj [("id", Json.num n), ("results", Json.arr xs)])
        = (match decodeAll decodeCompanyAlternativeName xs with
           | some results => some { id := n, results := results }
           | none => none) := rfl
    rw [e, h]
    exact ⟨rfl, decodeAll_length _ xs ys h⟩
  · intro n bs ps ls bs2 ps2 ls2 hb hp hl
    have e : decodeMovieImagesResult
        (Json.obj [("id", Json.num n), ("backdrops", Json.arr bs),
                   ("posters", Json.arr ps), ("logos", Json.arr ls)])
        = (match decodeAll decodeImage bs, decodeAll decodeImage ps,
                 decodeAll decodeImage ls with
           | some backdrops, some posters, some logos =>
             some { id := n, backdrops := backdrops, posters := posters,
                    logos := logos }
           | _, _, _ => none) := rfl
    rw [e, hb, hp, hl]

/-- C4 witness: a one-entry alternative-names body and an empty images
body decode to the expected values. -/
theorem decode_object_with_documented_fields_witness :
    decodeCompanyAlternativeNamesResult
        (Json.obj [("id", Json.num 1),
                   ("results", Json.arr
                     [Json.obj [("name", Json.str "Disney"),
                                ("type", Json.str "")]])])
      = some { id := 1, results := [{ name := "Disney", kind := none }] } ∧
    decodeMovieImagesResult
        (Json.obj [("id", Json.num 550), ("backdrops", Json.arr []),
                   ("posters", Json.arr []), ("logos", Json.arr [])])
      = some { id := 550, backdrops := [], posters := [], logos := [] } :=
  ⟨(decode_object_with_documented_fields.1 1
      [Json.obj [("name", Json.str "Disney"), ("type", Json.str "")]]
      [{ name := "Disney", kind := none }] rfl).1,
   decode_object_with_documented_fields.2 550 [] [] [] [] [] [] rfl rfl rfl⟩

/-- C5 counterexample: no renaming of `MovieImages` commands into
`CompanyAlternativeNames` commands makes the two `params` functions
agree on every input — `{ movie_id := 550, language := Some "en" }`
produces a non-empty parameter list while every
`CompanyAlternativeNames::params` is empty. -/
theorem commands_not_identical_counterexample :
    ¬ ∃ f : MovieImages → CompanyAlternativeNames,
        ∀ m : MovieImages, m.params = (f m).params := by
  rintro ⟨f, h⟩
  have h550 := h { movie_id := 550, language := some "en" }
  simp [MovieImages.params, CompanyAlternativeNames.params] at h550

/-- C5 amended: both commands instantiate the same pattern — a path of
the shape literal ++ id ++ literal — and their `params` agree whenever
the `MovieImages` language field is `None`; they are not identical on
every input because `MovieImages` carries the extra language field. -/
theorem commands_share_pattern (c : CompanyAlternativeNames)
    (m : MovieImages) (h : m.language = none) :
    c.path = pathTemplate "/company/" "/alternative_names" c.company_id ∧
    m.path = pathTemplate "/movie/" "/images" m.movie_id ∧
    m.params = (CompanyAlternativeNames.new m.movie_id).params := by
  refine ⟨rfl, rfl, ?_⟩
  simp [MovieImages.params, CompanyAlternativeNames.params, h]

/-- C5 amended witness: concrete commands with language unset. -/
theorem commands_share_pattern_witness :
    (MovieImages.new 550).language = none ∧
    (CompanyAlternativeNames.new 1).path
      = pathTemplate "/company/" "/alternative_names" 1 ∧
    (MovieImages.new 550).params = (CompanyAlternativeNames.new 550).params :=
  ⟨rfl,
   (commands_share_pattern (CompanyAlternativeNames.new 1)
      (MovieImages.new 550) rfl).1,
   (commands_share_pattern (CompanyAlternativeNames.new 1)
      (MovieImages.new 550) rfl).2.2⟩

/-- C6: equal command values give equal `path` strings and equal
`params` lists — the calls are deterministic functions of the command's
fields (and, the embedding being pure, leave the command unchanged). -/
theorem path_params_deterministic (c c' : CompanyAlternativeNames)
    (m m' : MovieImages) (hc : c = c') (hm : m = m') :
    c.path = c'.path ∧ c.params = c'.params ∧
    m.path = m'.path ∧ m.params = m'.params := by
  subst hc
  subst hm
  exact ⟨rfl, rfl, rfl, rfl⟩

/-- C6 witness: two copies of each concrete command. -/
theorem path_params_deterministic_witness :
    (CompanyAlternativeNames.new 3).path = (CompanyAlternativeNames.new 3).path ∧
    (MovieImages.new 550).params = (MovieImages.new 550).params :=
  ⟨(path_params_deterministic (CompanyAlternativeNames.new 3)
      (CompanyAlternativeNames.new 3) (MovieImages.new 550)
      (MovieImages.new 550) rfl rfl).1,
   (path_params_deterministic (CompanyAlternativeNames.new 3)
      (CompanyAlternativeNames.new 3) (MovieImages.new 550)
      (MovieImages.new 550) rfl rfl).2.2.2⟩

/-- C7: the constructors set the required identifier —
`CompanyAlternativeNames::new` stores the company id and
`MovieImages::new` stores the movie id and leaves language `None`. -/
theorem constructors_set_identifier (id : Nat) :
    (CompanyAlternativeNames.new id).company_id = id ∧
    (MovieImages.new id).movie_id = id ∧
    (MovieImages.new id).language = none :=
  ⟨rfl, rfl, rfl⟩

/-- C8: the JSON field `"type"` reaches the `kind` field through the
empty-string filter — an empty string becomes `None`, a non-empty
string `s` becomes `Some s`. -/
theorem type_field_empty_string_filter :
    (∀ nm : String,
      decodeCompanyAlternativeName
          (Json.obj [("name", Json.str nm), ("type", Json.str "")])
        = some { name := nm, kind := none }) ∧
    (∀ (nm s : String), s ≠ "" →
      decodeCompanyAlternativeName
          (Json.obj [("name", Json.str nm), ("type", Json.str s)])
        = some { name := nm, kind := some s }) := by
  constructor
  · intro nm
    rfl
  · intro nm s h
    have e : decodeCompanyAlternativeName
        (Json.obj [("name", Json.str nm), ("type", Json.str s)])
        = some { name := nm, kind := if s = "" then none else some s } := rfl
    rw [e, if_neg h]

/-- C8 witness: a concrete non-empty kind string. -/
theorem type_field_empty_string_filter_witness :
    ("en" : String) ≠ "" ∧
    decodeCompanyAlternativeName
        (Json.obj [("name", Json.str "Disney"), ("type", Json.str "en")])
      = some { name := "Disney", kind := some "en" } :=
  ⟨by decide, type_field_empty_string_filter.2 "Disney" "en" (by decide)⟩

/-- C9: `with_language` only changes the language field — it stores the
given optional value, leaves `movie_id` unchanged, and of two chained
calls the last one wins. -/
theorem with_language_frame (m : MovieImages) (v v1 v2 : Option String) :
    (m.with_language v).language = v ∧
    (m.with_language v).movie_id = m.movie_id ∧
    (m.with_language v1).with_language v2 = m.with_language v2 :=
  ⟨rfl, rfl, rfl⟩

/-- C10 counterexample: a result whose entry has `kind = Some ""` does
not round-trip — it serializes to an empty `"type"` string, which the
empty-string filter reads back as `None`. -/
theorem roundtrip_counterexample :
    decodeCompanyAlternativeNamesResult
        (encodeCompanyAlternativeNamesResult
          { id := 1, results := [{ name := "x", kind := some "" }] })
      = some { id := 1, results := [{ name := "x", kind := none }] } ∧
    decodeCompanyAlternativeNamesResult
        (encodeCompanyAlternativeNamesResult
          { id := 1, results := [{ name := "x", kind := some "" }] })
      ≠ some { id := 1, results := [{ name := "x", kind := some "" }] } :=
  ⟨rfl, by decide⟩

/-- C10 amended: serialization round-trips for every
`MovieImagesResult` and for every `CompanyAlternativeNamesResult` none
of whose entries has `kind = Some ""` (in particular for entries whose
kind is `None`). -/
theorem roundtrip_holds_without_empty_kind
    (r : CompanyAlternativeNamesResult) (m : MovieImagesResult)
    (h : ∀ e ∈ r.results, e.kind ≠ some "") :
    decodeCompanyAlternativeNamesResult
        (encodeCompanyAlternativeNamesResult r) = some r ∧
    decodeMovieImagesResult (encodeMovieImagesResult m) = some m := by
  constructor
  · obtain ⟨n, results⟩ := r
    have e : decodeCompanyAlternativeNamesResult
        (encodeCompanyAlternativeNamesResult { id := n, results := results })
        = (match decodeAll decodeCompanyAlternativeName
                 (results.map encodeCompanyAlternativeName) with
           | some rs => some { id := n, results := rs }
           | none => none) := rfl
    rw [e, decodeAll_map _ _ results
      fun x hx => companyAlternativeName_roundtrip x (h x hx)]
  · obtain ⟨n, bs, ps, ls⟩ := m
    have e : decodeMovieImagesResult
        (encodeMovieImagesResult
          { id := n, backdrops := bs, posters := ps, logos := ls })
        = (match decodeAll decodeImage (bs.map encodeImage),
                 decodeAll decodeImage (ps.map encodeImage),
                 decodeAll decodeImage (ls.map encodeImage) with
           | some b2, some p2, some l2 =>
             some { id := n, backdrops := b2, posters := p2, logos := l2 }
           | _, _, _ => none) := rfl
    rw [e, decodeAll_map _ _ bs fun x _ => image_roundtrip x,
        decodeAll_map _ _ ps fun x _ => image_roundtrip x,
        decodeAll_map _ _ ls fun x _ => image_roundtrip x]

/-- C10 amended witness: concrete response values round-trip. -/
theorem roundtrip_holds_without_empty_kind_witness :
    decodeCompanyAlternativeNamesResult
        (encodeCompanyAlternativeNamesResult sampleCompanyResult)
      = some sampleCompanyResult ∧
    decodeMovieImagesResult (encodeMovieImagesResult sampleMovieImagesResult)
      = some sampleMovieImagesResult :=
  roundtrip_holds_without_empty_kind sampleCompanyResult
    sampleMovieImagesResult (by decide)

end Tmdb
